import Mathlib

/-!
Shallow embedding of the generation-lifecycle orchestrator of the
aiclothing-visualizer repository: the try-on and composite API route
handlers (POST create / GET status), the request validation schemas,
the Supabase storage helpers, and the image-combiner adapter.

JavaScript semantics that matter here (truthiness, `||` defaulting,
`typeof`, substring checks) are modelled explicitly.
-/

/-- A JSON-like value, used for the provider poll's `output` field. -/
inductive JsonVal where
  | str (s : String)
  | num (n : Int)
  | bool (b : Bool)
  | null
  | arr (elems : List JsonVal)
  | obj (fields : List (String × JsonVal))

/-- JavaScript truthiness of a JSON value (`if (v)`): empty string, 0,
false and null are falsy; every array and object is truthy. -/
def jsTruthy : JsonVal → Bool
  | .str s => s ≠ ""
  | .num n => n ≠ 0
  | .bool b => b
  | .null => false
  | .arr _ => true
  | .obj _ => true

/-- Truthiness of a possibly-absent value (`undefined` is falsy). -/
def jsTruthyOpt : Option JsonVal → Bool
  | none => false
  | some v => jsTruthy v

/-- JavaScript `typeof` of a possibly-absent value; arrays, objects and
null all report "object". -/
def jsTypeofOpt : Option JsonVal → String
  | none => "undefined"
  | some (.str _) => "string"
  | some (.num _) => "number"
  | some (.bool _) => "boolean"
  | some .null => "object"
  | some (.arr _) => "object"
  | some (.obj _) => "object"

/-- Property access `o[k]` on an object's field list (first match). -/
def objGet (fields : List (String × JsonVal)) (k : String) : Option JsonVal :=
  (fields.find? (fun p => p.1 == k)).map Prod.snd

/-- JavaScript `String.prototype.includes`: substring containment. -/
def strContains (s pat : String) : Bool := (s.splitOn pat).length != 1

/-- JavaScript `v || dflt` on a nullable string: null, undefined and ""
fall back to the default. -/
def orElseJs (v : Option String) (dflt : String) : String :=
  match v with
  | some s => if s = "" then dflt else s
  | none => dflt

/-- JavaScript truthiness of a nullable string. -/
def optStrTruthy : Option String → Bool
  | some s => s ≠ ""
  | none => false

/-- JavaScript `generation.progress || 0` on a nullable integer column. -/
def progressOrZero : Option Nat → Nat
  | some n => n
  | none => 0

/-- String interpolation of a nullable path (`null` renders as "null"). -/
def jsPathString : Option String → String
  | some s => s
  | none => "null"

/-- JavaScript `String.prototype.startsWith`, modelled on the
character list so that it evaluates inside the kernel. -/
def jsStartsWith (s p : String) : Bool := p.data.isPrefixOf s.data

/-- Outcome of `supabase.storage.from(bucket).createSignedUrl(path)`,
an external-collaborator response consumed by `getImageUrl`. -/
inductive SignResult where
  | signed (url : String)
  | err (msg : String)
  | threw
deriving DecidableEq, Repr

/-- The conventional public-URL form built by the Supabase client helper
(`getPublicUrl` in the client module). -/
def getPublicUrl (supabaseUrl bucket path : String) : String :=
  supabaseUrl ++ "/storage/v1/object/public/" ++ bucket ++ "/" ++ path

/-- `getImageUrl` from the Supabase client module: try a signed URL and
fall back to the public URL when the signing call errors or throws. -/
def getImageUrl (sr : SignResult) (supabaseUrl bucket path : String) : String :=
  match sr with
  | .signed u => u
  | .err _ => getPublicUrl supabaseUrl bucket path
  | .threw => getPublicUrl supabaseUrl bucket path

/-- The `metadata` column written at insert time by the two POST routes. -/
inductive Metadata where
  | tryOnMeta (modelImageId clothingImageId : Option String) (prompt : String)
  | compositeMeta (figureImageId sceneImageId : Option String) (prompt : String)
deriving DecidableEq, Repr

/-- A row of the `generations` table as read and written by the routes. -/
structure Generation where
  id : String
  user_id : String
  gtype : String
  status : String
  external_id : String
  storage_path : Option String
  progress : Option Nat
  error : Option String
  metadata : Metadata
  updated_at : String
deriving DecidableEq, Repr

/-- The client-facing status body (the `debug` sub-object is flattened
into the `debug*` fields). -/
structure StatusProjection where
  id : String
  status : String
  progress : Nat
  imageUrl : Option String
  error : Option String
  debugExternalId : String
  debugStoragePath : Option String
  debugBucket : String
  debugMetadata : Metadata
  debugUpdatedAt : String
deriving DecidableEq, Repr

/-- HTTP response of a status (GET) route. -/
inductive GetResponse where
  | ok (p : StatusProjection)
  | badRequest (error : String)
  | notFound (error message : String)
  | serverError (error message : String)
deriving DecidableEq, Repr

/-- HTTP response of a create (POST) route. -/
inductive PostResponse where
  | created (id status message : String) (estimatedTimeSeconds : Nat)
  | badRequest (error : String)
  | serverError (error message : String)
deriving DecidableEq, Repr

/-- Observable calls to the external collaborators (provider, artifact
store, record store) made during one invocation. -/
inductive Effect where
  | providerPoll (externalId : String)
  | storageSign (bucket path : String)
  | storageDownload
  | storageUpload (bucket path : String)
  | storageDelete (bucket path : String)
  | recordInsert
  | recordUpdate
deriving DecidableEq, Repr

/-- Result of one status-check invocation: the HTTP response, the
persisted record after the call, and the external calls made. -/
structure StepOut where
  resp : GetResponse
  record : Generation
  effects : List Effect

/-- Canonical poll result of the try-on adapter's `checkPredictionStatus`:
the provider's status string, raw `output`, and nullable `error`. -/
structure PredictionStatus where
  status : String
  output : Option JsonVal
  error : Option String

/-- Canonical poll result of the composite adapter's `checkJobStatus`:
the provider's status string, the raw `output` passed through verbatim
as `imageUrl`, and nullable `error`. -/
structure JobStatus where
  status : String
  imageUrl : Option JsonVal
  error : Option String

/-- The ordered candidate property names probed on an object-shaped
provider output (`possibleProps` in the try-on status route). -/
def possibleProps : List String := ["image", "url", "output", "result", "generated_image"]

/-- One iteration of the probe loop: a property hits when its value is
truthy and is either a string (taken whole) or a non-empty array (first
element taken); any other value falls through without a break. -/
def probeHit (fields : List (String × JsonVal)) (k : String) : Option JsonVal :=
  match objGet fields k with
  | some v =>
    if jsTruthy v then
      match v with
      | .str s => some (.str s)
      | .arr (x :: _) => some x
      | _ => none
    else none
  | none => none

/-- The probe loop over the candidate property names, as written in the
try-on status route: first hit wins, misses continue. -/
def probeLoop : List String → List (String × JsonVal) → Option JsonVal
  | [], _ => none
  | p :: rest, fields =>
    match probeHit fields p with
    | some v => some v
    | none => probeLoop rest fields

/-- Output-URL extraction of the try-on status route: a falsy output
yields nothing; a string is taken whole; a non-empty array yields its
first element; an object is probed over `possibleProps`; an empty array
reaches the object case (JavaScript `typeof [] === "object"`) but has
none of the probed properties; numbers and booleans match no case. -/
def extractTryOnImageUrl (output : Option JsonVal) : Option JsonVal :=
  match output with
  | none => none
  | some v =>
    if jsTruthy v then
      match v with
      | .str s => some (.str s)
      | .arr (x :: _) => some x
      | .arr [] => none
      | .obj fields => probeLoop possibleProps fields
      | _ => none
    else none

/-- Environment consumed by one try-on status check: the poll outcome,
the storage outcomes on the succeeded path, the signing outcomes of the
`getImageUrl` calls, the environment variables and the current time. -/
structure TryOnGetEnv where
  poll : Except String PredictionStatus
  fetchOk : Bool
  uploadError : Option String
  filename : String
  sign : SignResult
  signTerminal : SignResult
  supabaseUrl : String
  routeSupabaseUrl : Option String
  now : String

/-- Environment consumed by one composite status check. -/
structure CompositeGetEnv where
  poll : Except String JobStatus
  fetchOk : Bool
  uploadError : Option String
  filename : String
  sign : SignResult
  signTerminal : SignResult
  supabaseUrl : String
  now : String

def tryOnBucket : String := "try-on-images"
def compositeBucket : String := "composite-images"

/-- The try-on route's terminal-state guard (`completed` or `failed`). -/
def tryOnIsTerminal (s : String) : Bool := s == "completed" || s == "failed"

/-- The composite route's terminal-state guard, which additionally
accepts the undocumented stored status `succeeded`. -/
def compositeIsTerminal (s : String) : Bool :=
  s == "completed" || s == "succeeded" || s == "failed"

/-- Image URL returned for a completed record, including the route's
fallback to a hand-built public URL when `getImageUrl` returns an empty
string and the Supabase URL environment variable is set. -/
def tryOnResolveUrl (sr : SignResult) (supabaseUrl : String)
    (routeSupabaseUrl : Option String) (path : String) : String :=
  let u := getImageUrl sr supabaseUrl tryOnBucket path
  if u = "" then
    match routeSupabaseUrl with
    | some su => su ++ "/storage/v1/object/public/try-on-images/" ++ path
    | none => u
  else u

/-- Terminal read of the try-on status route: the projection is built
from persisted fields; a completed record with a storage path triggers
one `getImageUrl` call (with public-URL fallback); the record is not
written. -/
def tryOnTerminalRead (g : Generation) (env : TryOnGetEnv) : StepOut :=
  let withUrl := g.status == "completed" && optStrTruthy g.storage_path
  let imageUrl : Option String :=
    if withUrl then
      some (tryOnResolveUrl env.signTerminal env.supabaseUrl env.routeSupabaseUrl
        (g.storage_path.getD ""))
    else none
  { resp := .ok
      { id := g.id, status := g.status, progress := 100, imageUrl := imageUrl,
        error := g.error, debugExternalId := g.external_id,
        debugStoragePath := g.storage_path, debugBucket := tryOnBucket,
        debugMetadata := g.metadata, debugUpdatedAt := g.updated_at },
    record := g,
    effects := if withUrl then [.storageSign tryOnBucket (g.storage_path.getD "")] else [] }

/-- The fields of the record update computed from one successful poll,
before the write-back. -/
structure PollUpdate where
  newStatus : String
  progress : Nat
  storage_path : Option String
  error : Option String
  fx : List Effect

/-- The succeeded-poll output handling shared by both routes once an
image reference was accepted: download the bytes, upload them under a
fresh path scoped by the generation id, and classify upload errors into
a storage-configuration failure (message mentions "bucket" or "does not
exist") or a generic store failure; a download exception yields a
generic download failure with the storage path left unchanged. -/
def handleResolvedOutput (g : Generation) (bucket : String) (fetchOk : Bool)
    (uploadError : Option String) (filename : String) : PollUpdate :=
  if fetchOk then
    let sp := g.id ++ "/" ++ filename
    match uploadError with
    | some m =>
      if strContains m "bucket" || strContains m "does not exist" then
        { newStatus := "failed", progress := 100, storage_path := some sp,
          error := some ("Storage configuration issue: " ++ m ++
            ". Please ensure the \"" ++ bucket ++ "\" bucket exists in your Supabase project."),
          fx := [.storageDownload, .storageUpload bucket sp] }
      else
        { newStatus := "failed", progress := 100, storage_path := some sp,
          error := some ("Failed to store the generated image: " ++ m),
          fx := [.storageDownload, .storageUpload bucket sp] }
    | none =>
      { newStatus := "completed", progress := 100, storage_path := some sp,
        error := g.error, fx := [.storageDownload, .storageUpload bucket sp] }
  else
    { newStatus := "failed", progress := 100, storage_path := g.storage_path,
      error := some "Failed to download or process the generated image",
      fx := [.storageDownload] }

/-- Record update computed by the try-on route from one successful poll:
succeeded runs URL extraction then output handling (a non-resolvable
output fails with a "No output image received" error naming the output's
typeof); failed takes the provider's reason with a generic fallback and
leaves progress untouched; anything else re-estimates progress as 50 on
an explicit "processing" sub-state and 25 otherwise. -/
def tryOnApplyPoll (g : Generation) (env : TryOnGetEnv) (ps : PredictionStatus) : PollUpdate :=
  if ps.status == "succeeded" then
    if jsTruthyOpt (extractTryOnImageUrl ps.output) then
      handleResolvedOutput g tryOnBucket env.fetchOk env.uploadError env.filename
    else
      { newStatus := "failed", progress := 100, storage_path := g.storage_path,
        error := some ("No output image received from the API. Output format: " ++
          jsTypeofOpt ps.output),
        fx := [] }
  else if ps.status == "failed" then
    { newStatus := "failed", progress := progressOrZero g.progress,
      storage_path := g.storage_path,
      error := some (orElseJs ps.error "Generation failed"), fx := [] }
  else
    { newStatus := g.status,
      progress := if ps.status == "processing" then 50 else 25,
      storage_path := g.storage_path, error := g.error, fx := [] }

/-- Processing branch of the try-on status route after a successful
poll: apply the poll, write the record back unconditionally, make the
log's and the response's `getImageUrl` calls when completed, and build
the projection from the just-updated fields. -/
def tryOnProcessPoll (g : Generation) (env : TryOnGetEnv) (ps : PredictionStatus) : StepOut :=
  let u := tryOnApplyPoll g env ps
  let newRecord : Generation :=
    { g with status := u.newStatus, progress := some u.progress,
             storage_path := u.storage_path, error := u.error, updated_at := env.now }
  let logFx : List Effect :=
    if u.newStatus == "completed" then
      [.storageSign tryOnBucket (jsPathString u.storage_path)] else []
  let withUrl := u.newStatus == "completed" && optStrTruthy u.storage_path
  let imageUrl : Option String :=
    if withUrl then
      some (tryOnResolveUrl env.sign env.supabaseUrl env.routeSupabaseUrl
        (u.storage_path.getD ""))
    else none
  let respFx : List Effect :=
    if withUrl then [.storageSign tryOnBucket (u.storage_path.getD "")] else []
  { resp := .ok
      { id := g.id, status := u.newStatus, progress := u.progress, imageUrl := imageUrl,
        error := u.error, debugExternalId := g.external_id,
        debugStoragePath := u.storage_path, debugBucket := tryOnBucket,
        debugMetadata := g.metadata, debugUpdatedAt := env.now },
    record := newRecord,
    effects := [.providerPoll g.external_id] ++ u.fx ++ [.recordUpdate] ++ logFx ++ respFx }

/-- One try-on status check on a found record: terminal records are
read back without polling; otherwise the adapter is polled, a poll
exception surfacing as HTTP 500 with the record untouched. -/
def tryOnGetStep (g : Generation) (env : TryOnGetEnv) : StepOut :=
  if tryOnIsTerminal g.status then tryOnTerminalRead g env
  else
    match env.poll with
    | .error m =>
      { resp := .serverError "Failed to check generation status" m,
        record := g, effects := [.providerPoll g.external_id] }
    | .ok ps => tryOnProcessPoll g env ps

/-- Terminal read of the composite status route: also accepts the
stored status `succeeded`; the `getImageUrl` call is made for both
`completed` and `succeeded` without guarding on a storage path and with
no empty-string fallback; the record is not written. -/
def compositeTerminalRead (g : Generation) (env : CompositeGetEnv) : StepOut :=
  let withUrl := g.status == "completed" || g.status == "succeeded"
  let imageUrl : Option String :=
    if withUrl then
      some (getImageUrl env.signTerminal env.supabaseUrl compositeBucket
        (jsPathString g.storage_path))
    else none
  { resp := .ok
      { id := g.id, status := g.status, progress := 100, imageUrl := imageUrl,
        error := g.error, debugExternalId := g.external_id,
        debugStoragePath := g.storage_path, debugBucket := compositeBucket,
        debugMetadata := g.metadata, debugUpdatedAt := g.updated_at },
    record := g,
    effects :=
      if withUrl then [.storageSign compositeBucket (jsPathString g.storage_path)] else [] }

/-- Record update computed by the composite route from one successful
poll: a `completed` or `succeeded` provider status accepts the raw
output by truthiness alone (no shape probing) and otherwise fails with
the bare "No output image received from the API" error; failed takes the
provider's reason with a generic fallback and leaves progress untouched;
anything else re-estimates progress as 50 or 25. -/
def compositeApplyPoll (g : Generation) (env : CompositeGetEnv) (js : JobStatus) : PollUpdate :=
  if js.status == "completed" || js.status == "succeeded" then
    if jsTruthyOpt js.imageUrl then
      handleResolvedOutput g compositeBucket env.fetchOk env.uploadError env.filename
    else
      { newStatus := "failed", progress := 100, storage_path := g.storage_path,
        error := some "No output image received from the API", fx := [] }
  else if js.status == "failed" then
    { newStatus := "failed", progress := progressOrZero g.progress,
      storage_path := g.storage_path,
      error := some (orElseJs js.error "Generation failed"), fx := [] }
  else
    { newStatus := g.status,
      progress := if js.status == "processing" then 50 else 25,
      storage_path := g.storage_path, error := g.error, fx := [] }

/-- Processing branch of the composite status route after a successful
poll: apply the poll, write the record back unconditionally, and make
the log's and the response's `getImageUrl` calls (both unguarded on the
storage path) when the new status is completed or succeeded. -/
def compositeProcessPoll (g : Generation) (env : CompositeGetEnv) (js : JobStatus) : StepOut :=
  let u := compositeApplyPoll g env js
  let newRecord : Generation :=
    { g with status := u.newStatus, progress := some u.progress,
             storage_path := u.storage_path, error := u.error, updated_at := env.now }
  let withUrl := u.newStatus == "completed" || u.newStatus == "succeeded"
  let imageUrl : Option String :=
    if withUrl then
      some (getImageUrl env.sign env.supabaseUrl compositeBucket (jsPathString u.storage_path))
    else none
  let signFx : List Effect :=
    if withUrl then
      [.storageSign compositeBucket (jsPathString u.storage_path),
       .storageSign compositeBucket (jsPathString u.storage_path)]
    else []
  { resp := .ok
      { id := g.id, status := u.newStatus, progress := u.progress, imageUrl := imageUrl,
        error := u.error, debugExternalId := g.external_id,
        debugStoragePath := u.storage_path, debugBucket := compositeBucket,
        debugMetadata := g.metadata, debugUpdatedAt := env.now },
    record := newRecord,
    effects := [.providerPoll g.external_id] ++ u.fx ++ [.recordUpdate] ++ signFx }

/-- One composite status check on a found record: records whose stored
status is `completed`, `succeeded` or `failed` are read back without
polling; otherwise the adapter is polled, a poll exception surfacing as
HTTP 500 with the record untouched. -/
def compositeGetStep (g : Generation) (env : CompositeGetEnv) : StepOut :=
  if compositeIsTerminal g.status then compositeTerminalRead g env
  else
    match env.poll with
    | .error m =>
      { resp := .serverError "Failed to check generation status" m,
        record := g, effects := [.providerPoll g.external_id] }
    | .ok js => compositeProcessPoll g env js

/-- Raw try-on POST body fields before validation (absent = undefined). -/
structure TryOnBody where
  modelImageBase64 : Option String
  clothingImageBase64 : Option String
  modelImageId : Option String
  clothingImageId : Option String
  prompt : Option String
deriving DecidableEq, Repr

/-- Parsed try-on request after `TryOnRequestSchema` succeeds. -/
structure TryOnRequest where
  modelImageBase64 : String
  clothingImageBase64 : String
  modelImageId : Option String
  clothingImageId : Option String
  prompt : String
deriving DecidableEq, Repr

/-- Raw composite POST body fields before validation. -/
structure CompositeBody where
  figureImageBase64 : Option String
  sceneImageBase64 : Option String
  figureImageId : Option String
  sceneImageId : Option String
  prompt : Option String
deriving DecidableEq, Repr

/-- Parsed composite request after `CompositeRequestSchema` succeeds. -/
structure CompositeRequest where
  figureImageBase64 : String
  sceneImageBase64 : String
  figureImageId : Option String
  sceneImageId : Option String
  prompt : String
deriving DecidableEq, Repr

/-- Issues of a required `z.string().min(1)` field: absent fields are a
required-type issue, the empty string violates the minimum length. -/
def zodRequiredString (name : String) (v : Option String) : List String :=
  match v with
  | none => [name ++ ": Required"]
  | some s => if s.length < 1 then [name ++ ": too small"] else []

/-- `TryOnRequestSchema.safeParse`: both base64 fields are required
non-empty strings; the prompt is a 5-1000 character string defaulting to
"A person wearing clothing" when absent (the default is itself parsed). -/
def validateTryOn (b : TryOnBody) : Except (List String) TryOnRequest :=
  let promptVal := b.prompt.getD "A person wearing clothing"
  let errs :=
    zodRequiredString "modelImageBase64" b.modelImageBase64 ++
    zodRequiredString "clothingImageBase64" b.clothingImageBase64 ++
    (if promptVal.length < 5 then
      ["prompt: Please provide a descriptive prompt (at least 5 characters)"] else []) ++
    (if promptVal.length > 1000 then
      ["prompt: Prompt is too long (maximum 1000 characters)"] else [])
  if errs = [] then
    .ok { modelImageBase64 := b.modelImageBase64.getD "",
          clothingImageBase64 := b.clothingImageBase64.getD "",
          modelImageId := b.modelImageId, clothingImageId := b.clothingImageId,
          prompt := promptVal }
  else .error errs

/-- `CompositeRequestSchema.safeParse`: both base64 fields are required
non-empty strings; the prompt is a required 10-1000 character string
with no default. -/
def validateComposite (b : CompositeBody) : Except (List String) CompositeRequest :=
  let promptErrs :=
    match b.prompt with
    | none => ["prompt: Required"]
    | some p =>
      (if p.length < 10 then
        ["prompt: Please provide a detailed prompt (at least 10 characters)"] else []) ++
      (if p.length > 1000 then
        ["prompt: Prompt is too long (maximum 1000 characters)"] else [])
  let errs :=
    zodRequiredString "figureImageBase64" b.figureImageBase64 ++
    zodRequiredString "sceneImageBase64" b.sceneImageBase64 ++ promptErrs
  if errs = [] then
    .ok { figureImageBase64 := b.figureImageBase64.getD "",
          sceneImageBase64 := b.sceneImageBase64.getD "",
          figureImageId := b.figureImageId, sceneImageId := b.sceneImageId,
          prompt := b.prompt.getD "" }
  else .error errs

/-- Modelled from the spec: the repository does not contain the schema
of the `generations` table (the insert in both POST routes omits the
`progress` column), so the record store's column default is taken from
the spec's create path, which persists a new record with `progress = 0`. -/
def defaultInsertProgress : Option Nat := some 0

/-- The try-on POST route: validate with the Zod schema (HTTP 400 on
failure), re-check the base64 fields, submit to the provider (HTTP 500
carrying the submission message and no inserted record on failure), and
on success insert a processing record and answer immediately. -/
def tryOnPost (b : TryOnBody) (generationId : String) (userIdHeader : Option String)
    (submit : Except String String) : PostResponse × Option Generation :=
  match validateTryOn b with
  | .error _ => (.badRequest "Invalid request data", none)
  | .ok r =>
    if r.modelImageBase64 = "" ∨ r.clothingImageBase64 = "" then
      (.badRequest "Missing image data. Both model and clothing images are required.", none)
    else
      match submit with
      | .error m => (.serverError "Failed to initiate try-on generation" m, none)
      | .ok predictionId =>
        (.created generationId "processing" "Try-on generation has been initiated" 15,
         some { id := generationId, user_id := orElseJs userIdHeader "anonymous",
                gtype := "try-on", status := "processing", external_id := predictionId,
                storage_path := none, progress := defaultInsertProgress, error := none,
                metadata := .tryOnMeta r.modelImageId r.clothingImageId r.prompt,
                updated_at := "" })

/-- The composite POST route, mirroring the try-on one with the
composite schema, adapter and response text. -/
def compositePost (b : CompositeBody) (generationId : String) (userIdHeader : Option String)
    (submit : Except String String) : PostResponse × Option Generation :=
  match validateComposite b with
  | .error _ => (.badRequest "Invalid request data", none)
  | .ok r =>
    if r.figureImageBase64 = "" ∨ r.sceneImageBase64 = "" then
      (.badRequest "Missing image data. Both figure and scene images are required.", none)
    else
      match submit with
      | .error m => (.serverError "Failed to initiate composite generation" m, none)
      | .ok jobId =>
        (.created generationId "processing" "Composite generation has been initiated" 20,
         some { id := generationId, user_id := orElseJs userIdHeader "anonymous",
                gtype := "composite", status := "processing", external_id := jobId,
                storage_path := none, progress := defaultInsertProgress, error := none,
                metadata := .compositeMeta r.figureImageId r.sceneImageId r.prompt,
                updated_at := "" })

/-- Environment consumed by one `generateComposite` call of the
image-combiner adapter: configuration, the temporary-upload outcomes,
the prediction submit outcome and the internal polling-loop outcome
(whose error covers a provider-reported failure, an HTTP error and the
10-minute timeout alike, all of which throw). -/
structure CombinerEnv where
  hasApiKey : Bool
  decodeOk : Bool
  tempId : String
  uploadModelError : Option String
  uploadSceneError : Option String
  submit : Except String String
  pollOutcome : Except String JsonVal

/-- Successful result of `generateComposite`: the raw output of the
final poll and the prediction id. -/
structure CombineResult where
  imageUrl : JsonVal
  jobId : String

/-- Temporary storage path of the uploaded model image. -/
def tempModelPath (tempId : String) : String := "temp/" ++ tempId ++ "-model.jpg"

/-- Temporary storage path of the uploaded scene image. -/
def tempScenePath (tempId : String) : String := "temp/" ++ tempId ++ "-scene.jpg"

/-- `cleanupTempImages`: delete both recorded temporary objects from the
temp bucket; never throws. -/
def cleanupFx : Option (String × String) → List Effect
  | none => []
  | some (mp, sp) => [.storageDelete "temp-bucket" mp, .storageDelete "temp-bucket" sp]

/-- Submit-and-poll tail of `generateComposite`, after the optional
temporary uploads: on the success path and on every failure path the
recorded temporary objects are cleaned up before returning. -/
def combinerSubmitAndPoll (env : CombinerEnv) (tempPaths : Option (String × String))
    (fx0 : List Effect) : Except String CombineResult × List Effect :=
  match env.submit with
  | .error m => (.error ("AI Image Combiner API error: " ++ m), fx0 ++ cleanupFx tempPaths)
  | .ok predictionId =>
    match env.pollOutcome with
    | .error m => (.error m, fx0 ++ cleanupFx tempPaths)
    | .ok output =>
      (.ok { imageUrl := output, jobId := predictionId }, fx0 ++ cleanupFx tempPaths)

/-- `generateComposite` of the image-combiner adapter: when the source
images arrive as inline data URLs and `useSupabaseUrls` is set, both are
first uploaded to temporary locations — both uploads are awaited before
either result is error-checked, and a failed upload then throws before
the paths are recorded; afterwards the prediction is created and the
internal polling loop is awaited, with the recorded temporary objects
deleted on every exit. -/
def generateComposite (figureImage sceneImage prompt : String) (useSupabaseUrls : Bool)
    (env : CombinerEnv) : Except String CombineResult × List Effect :=
  if !env.hasApiKey then
    (.error "API Market Key is missing. Please check your .env.local file for NEXT_PUBLIC_API_MARKET_KEY.", [])
  else if useSupabaseUrls &&
      (jsStartsWith figureImage "data:" || jsStartsWith sceneImage "data:") then
    if !env.decodeOk then (.error "base64 conversion failed", [])
    else
      let mp := tempModelPath env.tempId
      let sp := tempScenePath env.tempId
      let upFx : List Effect :=
        [.storageUpload "temp-bucket" mp, .storageUpload "temp-bucket" sp]
      match env.uploadModelError with
      | some m =>
        (.error ("Failed to upload model image: " ++ m), upFx)
      | none =>
        match env.uploadSceneError with
        | some m =>
          (.error ("Failed to upload scene image: " ++ m), upFx)
        | none =>
          combinerSubmitAndPoll env (some (mp, sp))
            (upFx ++ [.storageSign "temp-bucket" mp, .storageSign "temp-bucket" sp])
  else
    combinerSubmitAndPoll env none []

/-- Status field of a 200 status response. -/
def respStatus : GetResponse → Option String
  | .ok p => some p.status
  | _ => none

/-- Progress field of a 200 status response. -/
def respProgress : GetResponse → Option Nat
  | .ok p => some p.progress
  | _ => none

/-- Image-URL field of a 200 status response. -/
def respImageUrl : GetResponse → Option (Option String)
  | .ok p => some p.imageUrl
  | _ => none

/-- Error field of a 200 status response. -/
def respErrorField : GetResponse → Option (Option String)
  | .ok p => some p.error
  | _ => none

/-- Whether an `Except` value is a success. -/
def exceptOk {ε α : Type} : Except ε α → Bool
  | .ok _ => true
  | .error _ => false

/-- A processing try-on record used to instantiate the theorems. -/
def gProcessing : Generation :=
  { id := "gen-1", user_id := "anonymous", gtype := "try-on", status := "processing",
    external_id := "pred-1", storage_path := none, progress := some 0, error := none,
    metadata := .tryOnMeta (some "m1") (some "c1") "A person wearing a red jacket",
    updated_at := "t0" }

/-- A try-on status environment whose provider poll call throws. -/
def envTryOnPollErr : TryOnGetEnv :=
  { poll := .error "fetch failed", fetchOk := true, uploadError := none,
    filename := "f.png", sign := .signed "signed-url", signTerminal := .signed "signed-url",
    supabaseUrl := "https://sb.example", routeSupabaseUrl := none, now := "t1" }

/-- A composite status environment whose provider poll call throws. -/
def envCompositePollErr : CompositeGetEnv :=
  { poll := .error "timeout", fetchOk := true, uploadError := none,
    filename := "f.png", sign := .signed "signed-url", signTerminal := .signed "signed-url",
    supabaseUrl := "https://sb.example", now := "t1" }

/-- A well-formed try-on POST body used to instantiate the theorems. -/
def bodyTryOn : TryOnBody :=
  { modelImageBase64 := some "data:image/png;base64,AAAA",
    clothingImageBase64 := some "data:image/png;base64,BBBB",
    modelImageId := some "m1", clothingImageId := some "c1",
    prompt := some "A person wearing a red jacket" }

/-- A well-formed composite POST body used to instantiate the theorems. -/
def bodyComposite : CompositeBody :=
  { figureImageBase64 := some "data:image/png;base64,CCCC",
    sceneImageBase64 := some "data:image/png;base64,DDDD",
    figureImageId := some "f1", sceneImageId := some "s1",
    prompt := some "Place the person on a beach" }

/-- A 1001-character prompt, above the 1000-character ceiling. -/
def longPrompt : String := String.mk (List.replicate 1001 'a')

/-- A composite record persisted with the stored status "succeeded". -/
def gSucceeded : Generation :=
  { id := "gen-3", user_id := "anonymous", gtype := "composite", status := "succeeded",
    external_id := "job-3", storage_path := some "gen-3/out.png", progress := some 100,
    error := none, metadata := .compositeMeta (some "f1") (some "s1") "On a beach at sunset",
    updated_at := "t2" }

/-- A completed try-on record with a stored storage path. -/
def gCompleted : Generation :=
  { id := "gen-4", user_id := "anonymous", gtype := "try-on", status := "completed",
    external_id := "pred-4", storage_path := some "gen-4/out.png", progress := some 100,
    error := none, metadata := .tryOnMeta (some "m1") (some "c1") "A person wearing a coat",
    updated_at := "t3" }

/-- A second try-on status environment differing from
`envTryOnPollErr` only in fields a terminal read never consults. -/
def envTryOnOther : TryOnGetEnv :=
  { poll := .ok { status := "processing", output := none, error := none },
    fetchOk := false, uploadError := some "x", filename := "other.png",
    sign := .err "no", signTerminal := .signed "signed-url",
    supabaseUrl := "https://sb.example", routeSupabaseUrl := none, now := "t9" }

/-- A second composite status environment differing from
`envCompositePollErr` only in fields a terminal read never consults. -/
def envCompositeOther : CompositeGetEnv :=
  { poll := .ok { status := "processing", imageUrl := none, error := none },
    fetchOk := false, uploadError := some "x", filename := "other.png",
    sign := .err "no", signTerminal := .signed "signed-url",
    supabaseUrl := "https://sb.example", now := "t9" }

/-- A try-on environment: succeeded poll, good download, upload failing
with a bucket-related message. -/
def envTryOnBucketErr : TryOnGetEnv :=
  { poll := .ok { status := "succeeded", output := some (.str "https://cdn/x.png"),
                  error := none },
    fetchOk := true, uploadError := some "Bucket not found", filename := "f.png",
    sign := .signed "signed-url", signTerminal := .signed "signed-url",
    supabaseUrl := "https://sb.example", routeSupabaseUrl := none, now := "t4" }

/-- A composite environment: succeeded poll, good download, upload
failing with a bucket-related message. -/
def envCompositeBucketErr : CompositeGetEnv :=
  { poll := .ok { status := "succeeded", imageUrl := some (.str "https://cdn/y.png"),
                  error := none },
    fetchOk := true, uploadError := some "Bucket not found", filename := "f.png",
    sign := .signed "signed-url", signTerminal := .signed "signed-url",
    supabaseUrl := "https://sb.example", now := "t4" }

/-- An image-combiner environment whose internal polling loop times out
after both temporary uploads succeeded. -/
def envCombinerTimeout : CombinerEnv :=
  { hasApiKey := true, decodeOk := true, tempId := "tmp-1",
    uploadModelError := none, uploadSceneError := none,
    submit := .ok "job-7", pollOutcome := .error "Prediction timed out after 10 minutes" }

/-- A try-on status environment whose poll succeeds with the given
provider sub-state and error and whose storage outcomes are benign. -/
def mkTryOnPollEnv (s : String) (e : Option String) : TryOnGetEnv :=
  { poll := .ok { status := s, output := none, error := e }, fetchOk := true,
    uploadError := none, filename := "f.png", sign := .signed "signed-url",
    signTerminal := .signed "signed-url", supabaseUrl := "https://sb.example",
    routeSupabaseUrl := none, now := "t5" }

/-- The record after a first status check observing sub-state "processing". -/
def c3Step1 : Generation :=
  (tryOnGetStep gProcessing (mkTryOnPollEnv "processing" none)).record

/-- The record after a second status check observing sub-state "starting". -/
def c3Step2 : Generation :=
  (tryOnGetStep c3Step1 (mkTryOnPollEnv "starting" none)).record

/-- The outcome of a third status check observing a provider failure. -/
def c3Out3 : StepOut :=
  tryOnGetStep c3Step2 (mkTryOnPollEnv "failed" (some "face not detected"))

/-- A composite status environment whose poll succeeds with the given
provider status and error and whose storage outcomes are benign. -/
def mkCompositePollEnv (s : String) (e : Option String) : CompositeGetEnv :=
  { poll := .ok { status := s, imageUrl := none, error := e }, fetchOk := true,
    uploadError := none, filename := "f.png", sign := .signed "signed-url",
    signTerminal := .signed "signed-url", supabaseUrl := "https://sb.example", now := "t5" }

/-- A processing composite record used to instantiate the theorems. -/
def gProcessingComposite : Generation :=
  { id := "gen-5", user_id := "anonymous", gtype := "composite", status := "processing",
    external_id := "job-5", storage_path := none, progress := some 25, error := none,
    metadata := .compositeMeta (some "f1") (some "s1") "Place the person on a beach",
    updated_at := "t0" }

/-- A composite status environment whose poll succeeds with an
object-shaped output carrying none of the five candidate keys. The
route passes this non-URL value to `fetch`, which — the value being
stringified to "[object Object]" with no base URL — deterministically
throws in the server runtime, so the only realizable download outcome
for this output is `fetchOk := false`. -/
def envCompositeFooObj : CompositeGetEnv :=
  { poll := .ok { status := "succeeded",
                  imageUrl := some (.obj [("foo", .str "bar")]), error := none },
    fetchOk := false, uploadError := none, filename := "f.png",
    sign := .signed "signed-url", signTerminal := .signed "signed-url",
    supabaseUrl := "https://sb.example", now := "t6" }

/-- A try-on status environment whose poll succeeds with an
object-shaped output carrying none of the five candidate keys; the
try-on route's extraction rejects this output before any download, so
the download outcome is never consulted (set to the throwing one for
uniformity with the composite environment). -/
def envTryOnFooObj : TryOnGetEnv :=
  { poll := .ok { status := "succeeded",
                  output := some (.obj [("foo", .str "bar")]), error := none },
    fetchOk := false, uploadError := none, filename := "f.png",
    sign := .signed "signed-url", signTerminal := .signed "signed-url",
    supabaseUrl := "https://sb.example", routeSupabaseUrl := none, now := "t6" }

/-- A composite status environment whose poll succeeds with no output. -/
def envCompositeNoOutput : CompositeGetEnv :=
  { poll := .ok { status := "succeeded", imageUrl := none, error := none },
    fetchOk := true, uploadError := none, filename := "f.png",
    sign := .signed "signed-url", signTerminal := .signed "signed-url",
    supabaseUrl := "https://sb.example", now := "t6" }

theorem tryOnGetStep_terminal (g : Generation) (env : TryOnGetEnv)
    (h : tryOnIsTerminal g.status = true) :
    tryOnGetStep g env = tryOnTerminalRead g env := by
  simp [tryOnGetStep, h]

theorem tryOnGetStep_pollOk (g : Generation) (env : TryOnGetEnv) (ps : PredictionStatus)
    (h : tryOnIsTerminal g.status = false) (hp : env.poll = .ok ps) :
    tryOnGetStep g env = tryOnProcessPoll g env ps := by
  simp [tryOnGetStep, h, hp]

theorem tryOnGetStep_pollErr (g : Generation) (env : TryOnGetEnv) (m : String)
    (h : tryOnIsTerminal g.status = false) (hp : env.poll = .error m) :
    tryOnGetStep g env =
      { resp := .serverError "Failed to check generation status" m,
        record := g, effects := [.providerPoll g.external_id] } := by
  simp [tryOnGetStep, h, hp]

theorem compositeGetStep_terminal (g : Generation) (env : CompositeGetEnv)
    (h : compositeIsTerminal g.status = true) :
    compositeGetStep g env = compositeTerminalRead g env := by
  simp [compositeGetStep, h]

theorem compositeGetStep_pollOk (g : Generation) (env : CompositeGetEnv) (js : JobStatus)
    (h : compositeIsTerminal g.status = false) (hp : env.poll = .ok js) :
    compositeGetStep g env = compositeProcessPoll g env js := by
  simp [compositeGetStep, h, hp]

theorem compositeGetStep_pollErr (g : Generation) (env : CompositeGetEnv) (m : String)
    (h : compositeIsTerminal g.status = false) (hp : env.poll = .error m) :
    compositeGetStep g env =
      { resp := .serverError "Failed to check generation status" m,
        record := g, effects := [.providerPoll g.external_id] } := by
  simp [compositeGetStep, h, hp]

/-- C4: a status check on a processing generation whose provider poll
call itself throws returns HTTP 500 for that check only: the persisted
record is left completely unchanged (no record-store write at all), it
stays `processing` for a later retry, and no transition to `failed`
happens; this holds for both the try-on and the composite route. -/
theorem c4_poll_error_is_transient (g : Generation) (envT : TryOnGetEnv)
    (envC : CompositeGetEnv) (m m' : String) (hg : g.status = "processing")
    (hpT : envT.poll = .error m) (hpC : envC.poll = .error m') :
    (tryOnGetStep g envT).resp = .serverError "Failed to check generation status" m ∧
    (tryOnGetStep g envT).record = g ∧
    (tryOnGetStep g envT).record.status = "processing" ∧
    Effect.recordUpdate ∉ (tryOnGetStep g envT).effects ∧
    (compositeGetStep g envC).resp = .serverError "Failed to check generation status" m' ∧
    (compositeGetStep g envC).record = g ∧
    (compositeGetStep g envC).record.status = "processing" ∧
    Effect.recordUpdate ∉ (compositeGetStep g envC).effects := by
  have ht : tryOnIsTerminal g.status = false := by rw [hg]; rfl
  have hc : compositeIsTerminal g.status = false := by rw [hg]; rfl
  rw [tryOnGetStep_pollErr g envT m ht hpT, compositeGetStep_pollErr g envC m' hc hpC]
  refine ⟨rfl, rfl, hg, ?_, rfl, rfl, hg, ?_⟩ <;> simp

theorem c4_poll_error_is_transient_witness :
    (tryOnGetStep gProcessing envTryOnPollErr).resp =
      .serverError "Failed to check generation status" "fetch failed" ∧
    (tryOnGetStep gProcessing envTryOnPollErr).record = gProcessing ∧
    (tryOnGetStep gProcessing envTryOnPollErr).record.status = "processing" ∧
    Effect.recordUpdate ∉ (tryOnGetStep gProcessing envTryOnPollErr).effects ∧
    (compositeGetStep gProcessing envCompositePollErr).resp =
      .serverError "Failed to check generation status" "timeout" ∧
    (compositeGetStep gProcessing envCompositePollErr).record = gProcessing ∧
    (compositeGetStep gProcessing envCompositePollErr).record.status = "processing" ∧
    Effect.recordUpdate ∉ (compositeGetStep gProcessing envCompositePollErr).effects :=
  c4_poll_error_is_transient gProcessing envTryOnPollErr envCompositePollErr
    "fetch failed" "timeout" rfl rfl rfl

theorem validateTryOn_ok_of (b : TryOnBody) (mi ci : String)
    (hm : b.modelImageBase64 = some mi) (hm1 : 1 ≤ mi.length)
    (hc : b.clothingImageBase64 = some ci) (hc1 : 1 ≤ ci.length)
    (hp5 : 5 ≤ (b.prompt.getD "A person wearing clothing").length)
    (hp1000 : (b.prompt.getD "A person wearing clothing").length ≤ 1000) :
    validateTryOn b =
      .ok { modelImageBase64 := mi, clothingImageBase64 := ci,
            modelImageId := b.modelImageId, clothingImageId := b.clothingImageId,
            prompt := b.prompt.getD "A person wearing clothing" } := by
  simp [validateTryOn, zodRequiredString, hm, hc, Nat.not_lt.mpr hm1, Nat.not_lt.mpr hc1,
    Nat.not_lt.mpr hp5, Nat.not_lt.mpr hp1000]

theorem validateComposite_ok_of (b : CompositeBody) (fi si p : String)
    (hf : b.figureImageBase64 = some fi) (hf1 : 1 ≤ fi.length)
    (hs : b.sceneImageBase64 = some si) (hs1 : 1 ≤ si.length)
    (hp : b.prompt = some p) (hp10 : 10 ≤ p.length) (hp1000 : p.length ≤ 1000) :
    validateComposite b =
      .ok { figureImageBase64 := fi, sceneImageBase64 := si,
            figureImageId := b.figureImageId, sceneImageId := b.sceneImageId,
            prompt := p } := by
  simp [validateComposite, zodRequiredString, hf, hs, hp, Nat.not_lt.mpr hf1,
    Nat.not_lt.mpr hs1, Nat.not_lt.mpr hp10, Nat.not_lt.mpr hp1000]

theorem ne_empty_of_one_le_length (s : String) (h : 1 ≤ s.length) : s ≠ "" := by
  intro he
  rw [he] at h
  exact absurd h (by decide)

/-- C5: when the provider submit call fails, both create routes return
HTTP 500 carrying the submission error message and insert no generation
record: no orphan record exists for a failed submission. -/
theorem c5_failed_submit_inserts_nothing (bT : TryOnBody) (bC : CompositeBody)
    (gid gid' : String) (uid uid' : Option String) (m m' : String)
    (mi ci fi si p : String)
    (hm : bT.modelImageBase64 = some mi) (hm1 : 1 ≤ mi.length)
    (hc : bT.clothingImageBase64 = some ci) (hc1 : 1 ≤ ci.length)
    (hp5 : 5 ≤ (bT.prompt.getD "A person wearing clothing").length)
    (hp1000 : (bT.prompt.getD "A person wearing clothing").length ≤ 1000)
    (hf : bC.figureImageBase64 = some fi) (hf1 : 1 ≤ fi.length)
    (hs : bC.sceneImageBase64 = some si) (hs1 : 1 ≤ si.length)
    (hp : bC.prompt = some p) (hp10 : 10 ≤ p.length) (hp1000' : p.length ≤ 1000) :
    tryOnPost bT gid uid (.error m) =
      (.serverError "Failed to initiate try-on generation" m, none) ∧
    compositePost bC gid' uid' (.error m') =
      (.serverError "Failed to initiate composite generation" m', none) := by
  constructor
  · simp [tryOnPost, validateTryOn_ok_of bT mi ci hm hm1 hc hc1 hp5 hp1000,
      ne_empty_of_one_le_length mi hm1, ne_empty_of_one_le_length ci hc1]
  · simp [compositePost, validateComposite_ok_of bC fi si p hf hf1 hs hs1 hp hp10 hp1000',
      ne_empty_of_one_le_length fi hf1, ne_empty_of_one_le_length si hs1]

theorem c5_failed_submit_inserts_nothing_witness :
    tryOnPost bodyTryOn "gen-1" none (.error "upstream 422") =
      (.serverError "Failed to initiate try-on generation" "upstream 422", none) ∧
    compositePost bodyComposite "gen-2" none (.error "upstream 500") =
      (.serverError "Failed to initiate composite generation" "upstream 500", none) :=
  c5_failed_submit_inserts_nothing bodyTryOn bodyComposite "gen-1" "gen-2" none none
    "upstream 422" "upstream 500"
    "data:image/png;base64,AAAA" "data:image/png;base64,BBBB"
    "data:image/png;base64,CCCC" "data:image/png;base64,DDDD"
    "Place the person on a beach"
    rfl (by decide) rfl (by decide) (by decide) (by decide)
    rfl (by decide) rfl (by decide) rfl (by decide) (by decide)

theorem tryOnPost_badRequest_of_invalid (b : TryOnBody) (gid : String) (uid : Option String)
    (submit : Except String String) (h : exceptOk (validateTryOn b) = false) :
    tryOnPost b gid uid submit = (.badRequest "Invalid request data", none) := by
  cases hv : validateTryOn b with
  | error e => simp [tryOnPost, hv]
  | ok r => rw [hv] at h; exact absurd h (by simp [exceptOk])

theorem compositePost_badRequest_of_invalid (b : CompositeBody) (gid : String)
    (uid : Option String) (submit : Except String String)
    (h : exceptOk (validateComposite b) = false) :
    compositePost b gid uid submit = (.badRequest "Invalid request data", none) := by
  cases hv : validateComposite b with
  | error e => simp [compositePost, hv]
  | ok r => rw [hv] at h; exact absurd h (by simp [exceptOk])

theorem validateTryOn_invalid_of_bad_prompt (b : TryOnBody) (p : String)
    (hp : b.prompt = some p) (hbad : p.length < 5 ∨ 1000 < p.length) :
    exceptOk (validateTryOn b) = false := by
  rcases hbad with h | h <;>
    simp [validateTryOn, hp, h, exceptOk, List.append_eq_nil]

theorem validateComposite_invalid_of_bad_prompt (b : CompositeBody) (p : String)
    (hp : b.prompt = some p) (hbad : p.length < 10 ∨ 1000 < p.length) :
    exceptOk (validateComposite b) = false := by
  rcases hbad with h | h <;>
    simp [validateComposite, hp, h, exceptOk, List.append_eq_nil]

/-- C8: a composite create with a 9-character prompt is rejected with
HTTP 400 while a 10-character prompt passes validation; a try-on prompt
of exactly 5 characters is accepted while 4 characters is rejected with
HTTP 400; both prompts are rejected above 1000 characters; and a try-on
request that omits the prompt parses to the default
"A person wearing clothing". -/
theorem c8_validation_boundaries :
    (∀ (b : CompositeBody) (p gid : String) (uid : Option String)
        (submit : Except String String), b.prompt = some p → p.length = 9 →
        compositePost b gid uid submit = (.badRequest "Invalid request data", none)) ∧
    (∀ (b : CompositeBody) (fi si p : String), b.figureImageBase64 = some fi →
        1 ≤ fi.length → b.sceneImageBase64 = some si → 1 ≤ si.length →
        b.prompt = some p → p.length = 10 →
        exceptOk (validateComposite b) = true) ∧
    (∀ (b : TryOnBody) (mi ci p : String), b.modelImageBase64 = some mi →
        1 ≤ mi.length → b.clothingImageBase64 = some ci → 1 ≤ ci.length →
        b.prompt = some p → p.length = 5 →
        exceptOk (validateTryOn b) = true) ∧
    (∀ (b : TryOnBody) (p gid : String) (uid : Option String)
        (submit : Except String String), b.prompt = some p → p.length = 4 →
        tryOnPost b gid uid submit = (.badRequest "Invalid request data", none)) ∧
    (∀ (b : TryOnBody) (p : String), b.prompt = some p → 1000 < p.length →
        exceptOk (validateTryOn b) = false) ∧
    (∀ (b : CompositeBody) (p : String), b.prompt = some p → 1000 < p.length →
        exceptOk (validateComposite b) = false) ∧
    (∀ (b : TryOnBody) (mi ci : String), b.modelImageBase64 = some mi →
        1 ≤ mi.length → b.clothingImageBase64 = some ci → 1 ≤ ci.length →
        b.prompt = none →
        validateTryOn b =
          .ok { modelImageBase64 := mi, clothingImageBase64 := ci,
                modelImageId := b.modelImageId, clothingImageId := b.clothingImageId,
                prompt := "A person wearing clothing" }) := by
  refine ⟨?_, ?_, ?_, ?_, ?_, ?_, ?_⟩
  · intro b p gid uid submit hp hlen
    exact compositePost_badRequest_of_invalid b gid uid submit
      (validateComposite_invalid_of_bad_prompt b p hp (Or.inl (by omega)))
  · intro b fi si p hf hf1 hs hs1 hp hlen
    rw [validateComposite_ok_of b fi si p hf hf1 hs hs1 hp (by omega) (by omega)]
    rfl
  · intro b mi ci p hm hm1 hc hc1 hp hlen
    rw [validateTryOn_ok_of b mi ci hm hm1 hc hc1
      (by rw [hp]; simpa using by omega) (by rw [hp]; simpa using by omega)]
    rfl
  · intro b p gid uid submit hp hlen
    exact tryOnPost_badRequest_of_invalid b gid uid submit
      (validateTryOn_invalid_of_bad_prompt b p hp (Or.inl (by omega)))
  · intro b p hp hlen
    exact validateTryOn_invalid_of_bad_prompt b p hp (Or.inr hlen)
  · intro b p hp hlen
    exact validateComposite_invalid_of_bad_prompt b p hp (Or.inr hlen)
  · intro b mi ci hm hm1 hc hc1 hpn
    have h5 : 5 ≤ (b.prompt.getD "A person wearing clothing").length := by
      rw [hpn]; decide
    have h1000 : (b.prompt.getD "A person wearing clothing").length ≤ 1000 := by
      rw [hpn]; decide
    rw [validateTryOn_ok_of b mi ci hm hm1 hc hc1 h5 h1000, hpn]
    rfl

theorem longPrompt_length : 1000 < longPrompt.length := by
  have h : longPrompt.length = 1001 := by
    show (List.replicate 1001 'a').length = 1001
    exact List.length_replicate 1001 'a'
  rw [h]
  norm_num

theorem c8_validation_boundaries_witness :
    compositePost { bodyComposite with prompt := some "123456789" } "g1" none (.ok "j") =
      (.badRequest "Invalid request data", none) ∧
    exceptOk (validateComposite { bodyComposite with prompt := some "1234567890" }) = true ∧
    exceptOk (validateTryOn { bodyTryOn with prompt := some "12345" }) = true ∧
    tryOnPost { bodyTryOn with prompt := some "1234" } "g2" none (.ok "p") =
      (.badRequest "Invalid request data", none) ∧
    exceptOk (validateTryOn { bodyTryOn with prompt := some longPrompt }) = false ∧
    exceptOk (validateComposite { bodyComposite with prompt := some longPrompt }) = false ∧
    validateTryOn { bodyTryOn with prompt := none } =
      .ok { modelImageBase64 := "data:image/png;base64,AAAA",
            clothingImageBase64 := "data:image/png;base64,BBBB",
            modelImageId := some "m1", clothingImageId := some "c1",
            prompt := "A person wearing clothing" } :=
  ⟨c8_validation_boundaries.1 _ "123456789" "g1" none (.ok "j") rfl (by decide),
   c8_validation_boundaries.2.1 _ "data:image/png;base64,CCCC" "data:image/png;base64,DDDD"
     "1234567890" rfl (by decide) rfl (by decide) rfl (by decide),
   c8_validation_boundaries.2.2.1 _ "data:image/png;base64,AAAA" "data:image/png;base64,BBBB"
     "12345" rfl (by decide) rfl (by decide) rfl (by decide),
   c8_validation_boundaries.2.2.2.1 _ "1234" "g2" none (.ok "p") rfl (by decide),
   c8_validation_boundaries.2.2.2.2.1 _ longPrompt rfl longPrompt_length,
   c8_validation_boundaries.2.2.2.2.2.1 _ longPrompt rfl longPrompt_length,
   c8_validation_boundaries.2.2.2.2.2.2 _ "data:image/png;base64,AAAA"
     "data:image/png;base64,BBBB" rfl (by decide) rfl (by decide) rfl⟩

/-- C10: a composite status check on a record whose stored status is the
undocumented string "succeeded" is served like a terminal completed
record: no provider poll, no record write, the stored status echoed
verbatim with progress 100 and an imageUrl resolved from the stored
storage path; the try-on status route has no such branch and performs a
live provider poll on the same record. -/
theorem c10_succeeded_status_is_terminal_for_composite_only (g : Generation)
    (envC : CompositeGetEnv) (envT : TryOnGetEnv) (hg : g.status = "succeeded") :
    (compositeGetStep g envC).record = g ∧
    (∀ x, Effect.providerPoll x ∉ (compositeGetStep g envC).effects) ∧
    Effect.recordUpdate ∉ (compositeGetStep g envC).effects ∧
    respStatus (compositeGetStep g envC).resp = some "succeeded" ∧
    respProgress (compositeGetStep g envC).resp = some 100 ∧
    respImageUrl (compositeGetStep g envC).resp =
      some (some (getImageUrl envC.signTerminal envC.supabaseUrl compositeBucket
        (jsPathString g.storage_path))) ∧
    respErrorField (compositeGetStep g envC).resp = some g.error ∧
    Effect.providerPoll g.external_id ∈ (tryOnGetStep g envT).effects := by
  have hc : compositeIsTerminal g.status = true := by rw [hg]; rfl
  have ht : tryOnIsTerminal g.status = false := by rw [hg]; rfl
  rw [compositeGetStep_terminal g envC hc]
  refine ⟨rfl, ?_, ?_, ?_, ?_, ?_, ?_, ?_⟩
  · intro x
    simp [compositeTerminalRead, hg]
  · simp [compositeTerminalRead, hg]
  · simp [compositeTerminalRead, hg, respStatus]
  · simp [compositeTerminalRead, hg, respProgress]
  · simp [compositeTerminalRead, hg, respImageUrl]
  · simp [compositeTerminalRead, hg, respErrorField]
  · cases hp : envT.poll with
    | error m =>
      rw [tryOnGetStep_pollErr g envT m ht hp]
      simp
    | ok ps =>
      rw [tryOnGetStep_pollOk g envT ps ht hp]
      simp [tryOnProcessPoll]

theorem c10_succeeded_status_is_terminal_for_composite_only_witness :
    (compositeGetStep gSucceeded envCompositePollErr).record = gSucceeded ∧
    (∀ x, Effect.providerPoll x ∉ (compositeGetStep gSucceeded envCompositePollErr).effects) ∧
    Effect.recordUpdate ∉ (compositeGetStep gSucceeded envCompositePollErr).effects ∧
    respStatus (compositeGetStep gSucceeded envCompositePollErr).resp = some "succeeded" ∧
    respProgress (compositeGetStep gSucceeded envCompositePollErr).resp = some 100 ∧
    respImageUrl (compositeGetStep gSucceeded envCompositePollErr).resp =
      some (some (getImageUrl envCompositePollErr.signTerminal
        envCompositePollErr.supabaseUrl compositeBucket
        (jsPathString gSucceeded.storage_path))) ∧
    respErrorField (compositeGetStep gSucceeded envCompositePollErr).resp =
      some gSucceeded.error ∧
    Effect.providerPoll gSucceeded.external_id ∈
      (tryOnGetStep gSucceeded envTryOnPollErr).effects :=
  c10_succeeded_status_is_terminal_for_composite_only gSucceeded envCompositePollErr
    envTryOnPollErr rfl

/-- C2 counterexample: a status check on a completed record with a
storage path does make an artifact-store call (the signed-URL request
issued by `getImageUrl`), so a terminal read is not free of
artifact-store calls as claimed. -/
theorem c2_counterexample_terminal_read_signs_url :
    (tryOnGetStep gCompleted envTryOnPollErr).effects =
      [Effect.storageSign "try-on-images" "gen-4/out.png"] := by
  decide

/-- C2 amended: terminal reads perform no provider call and no
record-store write, leave the record unchanged, and are deterministic
projections of the persisted fields given fixed artifact-store
responses (so repeated reads are byte-identical); a `failed` read makes
no artifact-store call, but a `completed` read resolves its storage path
through the artifact store's signing endpoint. -/
theorem c2_terminal_reads_idempotent (g : Generation) (envT envT' : TryOnGetEnv)
    (envC envC' : CompositeGetEnv) (hg : g.status = "completed" ∨ g.status = "failed") :
    (tryOnGetStep g envT).record = g ∧
    (∀ x, Effect.providerPoll x ∉ (tryOnGetStep g envT).effects) ∧
    Effect.recordUpdate ∉ (tryOnGetStep g envT).effects ∧
    (g.status = "failed" → (tryOnGetStep g envT).effects = []) ∧
    (envT.signTerminal = envT'.signTerminal → envT.supabaseUrl = envT'.supabaseUrl →
      envT.routeSupabaseUrl = envT'.routeSupabaseUrl →
      (tryOnGetStep g envT).resp = (tryOnGetStep g envT').resp) ∧
    (compositeGetStep g envC).record = g ∧
    (∀ x, Effect.providerPoll x ∉ (compositeGetStep g envC).effects) ∧
    Effect.recordUpdate ∉ (compositeGetStep g envC).effects ∧
    (g.status = "failed" → (compositeGetStep g envC).effects = []) ∧
    (envC.signTerminal = envC'.signTerminal → envC.supabaseUrl = envC'.supabaseUrl →
      (compositeGetStep g envC).resp = (compositeGetStep g envC').resp) := by
  have ht : tryOnIsTerminal g.status = true := by
    rcases hg with h | h <;> rw [h] <;> rfl
  have hc : compositeIsTerminal g.status = true := by
    rcases hg with h | h <;> rw [h] <;> rfl
  rw [tryOnGetStep_terminal g envT ht, tryOnGetStep_terminal g envT' ht,
    compositeGetStep_terminal g envC hc, compositeGetStep_terminal g envC' hc]
  refine ⟨rfl, ?_, ?_, ?_, ?_, rfl, ?_, ?_, ?_, ?_⟩
  · intro x
    unfold tryOnTerminalRead
    dsimp only
    split <;> simp
  · unfold tryOnTerminalRead
    dsimp only
    split <;> simp
  · intro hf
    have hb : (g.status == "completed") = false := by rw [hf]; rfl
    simp [tryOnTerminalRead, hb]
  · intro h1 h2 h3
    simp only [tryOnTerminalRead, tryOnResolveUrl, h1, h2, h3]
  · intro x
    unfold compositeTerminalRead
    dsimp only
    split <;> simp
  · unfold compositeTerminalRead
    dsimp only
    split <;> simp
  · intro hf
    have hb : (g.status == "completed") = false := by rw [hf]; rfl
    have hb' : (g.status == "succeeded") = false := by rw [hf]; rfl
    simp [compositeTerminalRead, hb, hb']
  · intro h1 h2
    simp only [compositeTerminalRead, h1, h2]

theorem c2_terminal_reads_idempotent_witness :
    (tryOnGetStep gCompleted envTryOnPollErr).record = gCompleted ∧
    (∀ x, Effect.providerPoll x ∉ (tryOnGetStep gCompleted envTryOnPollErr).effects) ∧
    Effect.recordUpdate ∉ (tryOnGetStep gCompleted envTryOnPollErr).effects ∧
    (gCompleted.status = "failed" → (tryOnGetStep gCompleted envTryOnPollErr).effects = []) ∧
    (envTryOnPollErr.signTerminal = envTryOnOther.signTerminal →
      envTryOnPollErr.supabaseUrl = envTryOnOther.supabaseUrl →
      envTryOnPollErr.routeSupabaseUrl = envTryOnOther.routeSupabaseUrl →
      (tryOnGetStep gCompleted envTryOnPollErr).resp =
        (tryOnGetStep gCompleted envTryOnOther).resp) ∧
    (compositeGetStep gCompleted envCompositePollErr).record = gCompleted ∧
    (∀ x, Effect.providerPoll x ∉ (compositeGetStep gCompleted envCompositePollErr).effects) ∧
    Effect.recordUpdate ∉ (compositeGetStep gCompleted envCompositePollErr).effects ∧
    (gCompleted.status = "failed" →
      (compositeGetStep gCompleted envCompositePollErr).effects = []) ∧
    (envCompositePollErr.signTerminal = envCompositeOther.signTerminal →
      envCompositePollErr.supabaseUrl = envCompositeOther.supabaseUrl →
      (compositeGetStep gCompleted envCompositePollErr).resp =
        (compositeGetStep gCompleted envCompositeOther).resp) :=
  c2_terminal_reads_idempotent gCompleted envTryOnPollErr envTryOnOther
    envCompositePollErr envCompositeOther (Or.inl rfl)

theorem tryOnProcessPoll_record (g : Generation) (env : TryOnGetEnv) (ps : PredictionStatus) :
    (tryOnProcessPoll g env ps).record =
      { g with status := (tryOnApplyPoll g env ps).newStatus,
               progress := some (tryOnApplyPoll g env ps).progress,
               storage_path := (tryOnApplyPoll g env ps).storage_path,
               error := (tryOnApplyPoll g env ps).error, updated_at := env.now } := rfl

theorem tryOnProcessPoll_respStatus (g : Generation) (env : TryOnGetEnv)
    (ps : PredictionStatus) :
    respStatus (tryOnProcessPoll g env ps).resp =
      some (tryOnApplyPoll g env ps).newStatus := rfl

theorem tryOnProcessPoll_respProgress (g : Generation) (env : TryOnGetEnv)
    (ps : PredictionStatus) :
    respProgress (tryOnProcessPoll g env ps).resp =
      some (tryOnApplyPoll g env ps).progress := rfl

theorem tryOnProcessPoll_respError (g : Generation) (env : TryOnGetEnv)
    (ps : PredictionStatus) :
    respErrorField (tryOnProcessPoll g env ps).resp =
      some (tryOnApplyPoll g env ps).error := rfl

theorem compositeProcessPoll_record (g : Generation) (env : CompositeGetEnv)
    (js : JobStatus) :
    (compositeProcessPoll g env js).record =
      { g with status := (compositeApplyPoll g env js).newStatus,
               progress := some (compositeApplyPoll g env js).progress,
               storage_path := (compositeApplyPoll g env js).storage_path,
               error := (compositeApplyPoll g env js).error, updated_at := env.now } := rfl

theorem compositeProcessPoll_respStatus (g : Generation) (env : CompositeGetEnv)
    (js : JobStatus) :
    respStatus (compositeProcessPoll g env js).resp =
      some (compositeApplyPoll g env js).newStatus := rfl

theorem compositeProcessPoll_respProgress (g : Generation) (env : CompositeGetEnv)
    (js : JobStatus) :
    respProgress (compositeProcessPoll g env js).resp =
      some (compositeApplyPoll g env js).progress := rfl

theorem compositeProcessPoll_respError (g : Generation) (env : CompositeGetEnv)
    (js : JobStatus) :
    respErrorField (compositeProcessPoll g env js).resp =
      some (compositeApplyPoll g env js).error := rfl

theorem tryOnApplyPoll_succeeded_resolved (g : Generation) (env : TryOnGetEnv)
    (ps : PredictionStatus) (hs : ps.status = "succeeded")
    (hx : jsTruthyOpt (extractTryOnImageUrl ps.output) = true) :
    tryOnApplyPoll g env ps =
      handleResolvedOutput g tryOnBucket env.fetchOk env.uploadError env.filename := by
  have hb : (ps.status == "succeeded") = true := by rw [hs]; rfl
  simp [tryOnApplyPoll, hb, hx]

theorem compositeApplyPoll_succeeded_resolved (g : Generation) (env : CompositeGetEnv)
    (js : JobStatus) (hs : js.status = "completed" ∨ js.status = "succeeded")
    (hx : jsTruthyOpt js.imageUrl = true) :
    compositeApplyPoll g env js =
      handleResolvedOutput g compositeBucket env.fetchOk env.uploadError env.filename := by
  have hb : (js.status == "completed" || js.status == "succeeded") = true := by
    rcases hs with h | h <;> rw [h] <;> rfl
  simp [compositeApplyPoll, hb, hx]

/-- C7: when a succeeded poll's output was accepted but storing the
artifact fails, the generation is transitioned to a terminal failed
record (returned as a well-formed 200 status body, not thrown): an
upload error whose message mentions "bucket" or "does not exist" yields
a storage-configuration error naming the required bucket; any other
upload error yields the generic store-failure message; a download
exception yields the generic download-failure message. Holds for both
routes with their respective buckets. -/
theorem c7_storage_failures_become_failed_record (g : Generation) (envT : TryOnGetEnv)
    (envC : CompositeGetEnv) (ps : PredictionStatus) (js : JobStatus)
    (hg : g.status = "processing")
    (hpT : envT.poll = .ok ps) (hsT : ps.status = "succeeded")
    (hxT : jsTruthyOpt (extractTryOnImageUrl ps.output) = true)
    (hpC : envC.poll = .ok js) (hsC : js.status = "completed" ∨ js.status = "succeeded")
    (hxC : jsTruthyOpt js.imageUrl = true) :
    (∀ m, envT.fetchOk = true → envT.uploadError = some m →
      (strContains m "bucket" || strContains m "does not exist") = true →
      (tryOnGetStep g envT).record.status = "failed" ∧
      (tryOnGetStep g envT).record.error =
        some ("Storage configuration issue: " ++ m ++
          ". Please ensure the \"try-on-images\" bucket exists in your Supabase project.") ∧
      respStatus (tryOnGetStep g envT).resp = some "failed") ∧
    (∀ m, envT.fetchOk = true → envT.uploadError = some m →
      (strContains m "bucket" || strContains m "does not exist") = false →
      (tryOnGetStep g envT).record.status = "failed" ∧
      (tryOnGetStep g envT).record.error =
        some ("Failed to store the generated image: " ++ m) ∧
      respStatus (tryOnGetStep g envT).resp = some "failed") ∧
    (envT.fetchOk = false →
      (tryOnGetStep g envT).record.status = "failed" ∧
      (tryOnGetStep g envT).record.error =
        some "Failed to download or process the generated image" ∧
      respStatus (tryOnGetStep g envT).resp = some "failed") ∧
    (∀ m, envC.fetchOk = true → envC.uploadError = some m →
      (strContains m "bucket" || strContains m "does not exist") = true →
      (compositeGetStep g envC).record.status = "failed" ∧
      (compositeGetStep g envC).record.error =
        some ("Storage configuration issue: " ++ m ++
          ". Please ensure the \"composite-images\" bucket exists in your Supabase project.") ∧
      respStatus (compositeGetStep g envC).resp = some "failed") ∧
    (∀ m, envC.fetchOk = true → envC.uploadError = some m →
      (strContains m "bucket" || strContains m "does not exist") = false →
      (compositeGetStep g envC).record.status = "failed" ∧
      (compositeGetStep g envC).record.error =
        some ("Failed to store the generated image: " ++ m) ∧
      respStatus (compositeGetStep g envC).resp = some "failed") ∧
    (envC.fetchOk = false →
      (compositeGetStep g envC).record.status = "failed" ∧
      (compositeGetStep g envC).record.error =
        some "Failed to download or process the generated image" ∧
      respStatus (compositeGetStep g envC).resp = some "failed") := by
  have ht : tryOnIsTerminal g.status = false := by rw [hg]; rfl
  have hc : compositeIsTerminal g.status = false := by rw [hg]; rfl
  rw [tryOnGetStep_pollOk g envT ps ht hpT, compositeGetStep_pollOk g envC js hc hpC]
  have huT := tryOnApplyPoll_succeeded_resolved g envT ps hsT hxT
  have huC := compositeApplyPoll_succeeded_resolved g envC js hsC hxC
  refine ⟨?_, ?_, ?_, ?_, ?_, ?_⟩
  · intro m hf hu hbkt
    refine ⟨?_, ?_, ?_⟩ <;>
      simp [tryOnProcessPoll_record, tryOnProcessPoll_respStatus, huT,
        handleResolvedOutput, hf, hu, hbkt, tryOnBucket, String.append_assoc]
  · intro m hf hu hbkt
    refine ⟨?_, ?_, ?_⟩ <;>
      simp [tryOnProcessPoll_record, tryOnProcessPoll_respStatus, huT,
        handleResolvedOutput, hf, hu, hbkt, tryOnBucket]
  · intro hf
    refine ⟨?_, ?_, ?_⟩ <;>
      simp [tryOnProcessPoll_record, tryOnProcessPoll_respStatus, huT,
        handleResolvedOutput, hf]
  · intro m hf hu hbkt
    refine ⟨?_, ?_, ?_⟩ <;>
      simp [compositeProcessPoll_record, compositeProcessPoll_respStatus, huC,
        handleResolvedOutput, hf, hu, hbkt, compositeBucket, String.append_assoc]
  · intro m hf hu hbkt
    refine ⟨?_, ?_, ?_⟩ <;>
      simp [compositeProcessPoll_record, compositeProcessPoll_respStatus, huC,
        handleResolvedOutput, hf, hu, hbkt, compositeBucket]
  · intro hf
    refine ⟨?_, ?_, ?_⟩ <;>
      simp [compositeProcessPoll_record, compositeProcessPoll_respStatus, huC,
        handleResolvedOutput, hf]

theorem c7_storage_failures_become_failed_record_witness :
    (∀ m, envTryOnBucketErr.fetchOk = true → envTryOnBucketErr.uploadError = some m →
      (strContains m "bucket" || strContains m "does not exist") = true →
      (tryOnGetStep gProcessing envTryOnBucketErr).record.status = "failed" ∧
      (tryOnGetStep gProcessing envTryOnBucketErr).record.error =
        some ("Storage configuration issue: " ++ m ++
          ". Please ensure the \"try-on-images\" bucket exists in your Supabase project.") ∧
      respStatus (tryOnGetStep gProcessing envTryOnBucketErr).resp = some "failed") ∧
    (∀ m, envTryOnBucketErr.fetchOk = true → envTryOnBucketErr.uploadError = some m →
      (strContains m "bucket" || strContains m "does not exist") = false →
      (tryOnGetStep gProcessing envTryOnBucketErr).record.status = "failed" ∧
      (tryOnGetStep gProcessing envTryOnBucketErr).record.error =
        some ("Failed to store the generated image: " ++ m) ∧
      respStatus (tryOnGetStep gProcessing envTryOnBucketErr).resp = some "failed") ∧
    (envTryOnBucketErr.fetchOk = false →
      (tryOnGetStep gProcessing envTryOnBucketErr).record.status = "failed" ∧
      (tryOnGetStep gProcessing envTryOnBucketErr).record.error =
        some "Failed to download or process the generated image" ∧
      respStatus (tryOnGetStep gProcessing envTryOnBucketErr).resp = some "failed") ∧
    (∀ m, envCompositeBucketErr.fetchOk = true →
      envCompositeBucketErr.uploadError = some m →
      (strContains m "bucket" || strContains m "does not exist") = true →
      (compositeGetStep gProcessing envCompositeBucketErr).record.status = "failed" ∧
      (compositeGetStep gProcessing envCompositeBucketErr).record.error =
        some ("Storage configuration issue: " ++ m ++
          ". Please ensure the \"composite-images\" bucket exists in your Supabase project.") ∧
      respStatus (compositeGetStep gProcessing envCompositeBucketErr).resp = some "failed") ∧
    (∀ m, envCompositeBucketErr.fetchOk = true →
      envCompositeBucketErr.uploadError = some m →
      (strContains m "bucket" || strContains m "does not exist") = false →
      (compositeGetStep gProcessing envCompositeBucketErr).record.status = "failed" ∧
      (compositeGetStep gProcessing envCompositeBucketErr).record.error =
        some ("Failed to store the generated image: " ++ m) ∧
      respStatus (compositeGetStep gProcessing envCompositeBucketErr).resp = some "failed") ∧
    (envCompositeBucketErr.fetchOk = false →
      (compositeGetStep gProcessing envCompositeBucketErr).record.status = "failed" ∧
      (compositeGetStep gProcessing envCompositeBucketErr).record.error =
        some "Failed to download or process the generated image" ∧
      respStatus (compositeGetStep gProcessing envCompositeBucketErr).resp = some "failed") :=
  c7_storage_failures_become_failed_record gProcessing envTryOnBucketErr
    envCompositeBucketErr
    { status := "succeeded", output := some (.str "https://cdn/x.png"), error := none }
    { status := "succeeded", imageUrl := some (.str "https://cdn/y.png"), error := none }
    rfl rfl rfl (by decide) rfl (Or.inr rfl) (by decide)

/-- C9: whenever `generateComposite` uploaded both inline base64 source
images to temporary artifact-store locations (inline data present, both
temporary uploads succeeded), both temporary objects are deleted before
the call returns, on the success path and on every failure path
(submission rejection, poll failure or timeout alike). -/
theorem c9_temp_images_always_deleted (fig scene prompt : String) (env : CombinerEnv)
    (hkey : env.hasApiKey = true) (hdec : env.decodeOk = true)
    (hdata : jsStartsWith fig "data:" = true ∨ jsStartsWith scene "data:" = true)
    (hm : env.uploadModelError = none) (hs : env.uploadSceneError = none) :
    Effect.storageDelete "temp-bucket" (tempModelPath env.tempId) ∈
      (generateComposite fig scene prompt true env).2 ∧
    Effect.storageDelete "temp-bucket" (tempScenePath env.tempId) ∈
      (generateComposite fig scene prompt true env).2 := by
  have hb : (jsStartsWith fig "data:" || jsStartsWith scene "data:") = true := by
    rcases hdata with h | h <;> simp [h]
  cases hsub : env.submit with
  | error m =>
    constructor <;>
      simp [generateComposite, combinerSubmitAndPoll, cleanupFx, hkey, hdec, hb,
        hm, hs, hsub]
  | ok pid =>
    cases hpoll : env.pollOutcome with
    | error m =>
      constructor <;>
        simp [generateComposite, combinerSubmitAndPoll, cleanupFx, hkey, hdec, hb,
          hm, hs, hsub, hpoll]
    | ok out =>
      constructor <;>
        simp [generateComposite, combinerSubmitAndPoll, cleanupFx, hkey, hdec, hb,
          hm, hs, hsub, hpoll]

theorem c9_temp_images_always_deleted_witness :
    Effect.storageDelete "temp-bucket" (tempModelPath envCombinerTimeout.tempId) ∈
      (generateComposite "data:image/png;base64,CCCC" "data:image/png;base64,DDDD"
        "Place the person on a beach" true envCombinerTimeout).2 ∧
    Effect.storageDelete "temp-bucket" (tempScenePath envCombinerTimeout.tempId) ∈
      (generateComposite "data:image/png;base64,CCCC" "data:image/png;base64,DDDD"
        "Place the person on a beach" true envCombinerTimeout).2 :=
  c9_temp_images_always_deleted "data:image/png;base64,CCCC" "data:image/png;base64,DDDD"
    "Place the person on a beach" envCombinerTimeout rfl rfl (Or.inl (by decide)) rfl rfl

theorem handleResolvedOutput_progress (g : Generation) (bucket : String) (f : Bool)
    (u : Option String) (fn : String) :
    (handleResolvedOutput g bucket f u fn).progress = 100 := by
  cases f <;> cases u <;> simp [handleResolvedOutput] <;> split <;> rfl

theorem tryOnApplyPoll_succeeded_progress (g : Generation) (env : TryOnGetEnv)
    (ps : PredictionStatus) (hs : ps.status = "succeeded") :
    (tryOnApplyPoll g env ps).progress = 100 := by
  have hb : (ps.status == "succeeded") = true := by rw [hs]; rfl
  by_cases hx : jsTruthyOpt (extractTryOnImageUrl ps.output) = true
  · simp [tryOnApplyPoll, hb, hx, handleResolvedOutput_progress]
  · rw [Bool.not_eq_true] at hx
    simp [tryOnApplyPoll, hb, hx]

theorem compositeApplyPoll_succeeded_progress (g : Generation) (env : CompositeGetEnv)
    (js : JobStatus) (hs : js.status = "completed" ∨ js.status = "succeeded") :
    (compositeApplyPoll g env js).progress = 100 := by
  have hb : (js.status == "completed" || js.status == "succeeded") = true := by
    rcases hs with h | h <;> rw [h] <;> rfl
  by_cases hx : jsTruthyOpt js.imageUrl = true
  · simp [compositeApplyPoll, hb, hx, handleResolvedOutput_progress]
  · rw [Bool.not_eq_true] at hx
    simp [compositeApplyPoll, hb, hx]

/-- C3 counterexample: across three successive status checks the
persisted progress goes 50, then 25 (a decrease, because progress is
recomputed from the latest poll alone), and the transition to `failed`
leaves progress at 25 in both the persisted record and the returned
projection instead of jumping to 100. -/
theorem c3_counterexample_progress_not_monotone :
    c3Step1.progress = some 50 ∧
    c3Step2.progress = some 25 ∧
    c3Out3.record.status = "failed" ∧
    c3Out3.record.progress = some 25 ∧
    respProgress c3Out3.resp = some 25 := by decide

/-- C3 amended: while processing, each successful poll recomputes
progress from that poll alone — 50 on an explicit "processing"
sub-state, 25 otherwise — so the observed sequence can decrease when the
provider's sub-state regresses; on a succeeded poll progress becomes 100
in the persisted record and the projection; on a provider-reported
failure the record turns `failed` but keeps the previous progress value
in both record and transitioning projection; terminal reads always
project progress 100. Holds for both routes. -/
theorem c3_amended_progress_policy (g : Generation) (envT : TryOnGetEnv)
    (envC : CompositeGetEnv) (ps : PredictionStatus) (js : JobStatus)
    (hg : g.status = "processing") (hpT : envT.poll = .ok ps) (hpC : envC.poll = .ok js) :
    (ps.status ≠ "succeeded" → ps.status ≠ "failed" →
      (tryOnGetStep g envT).record.progress =
        some (if ps.status == "processing" then 50 else 25) ∧
      respProgress (tryOnGetStep g envT).resp =
        some (if ps.status == "processing" then 50 else 25)) ∧
    (ps.status = "succeeded" →
      (tryOnGetStep g envT).record.progress = some 100 ∧
      respProgress (tryOnGetStep g envT).resp = some 100) ∧
    (ps.status = "failed" →
      (tryOnGetStep g envT).record.status = "failed" ∧
      (tryOnGetStep g envT).record.progress = some (progressOrZero g.progress) ∧
      respProgress (tryOnGetStep g envT).resp = some (progressOrZero g.progress)) ∧
    (js.status ≠ "completed" → js.status ≠ "succeeded" → js.status ≠ "failed" →
      (compositeGetStep g envC).record.progress =
        some (if js.status == "processing" then 50 else 25) ∧
      respProgress (compositeGetStep g envC).resp =
        some (if js.status == "processing" then 50 else 25)) ∧
    (js.status = "completed" ∨ js.status = "succeeded" →
      (compositeGetStep g envC).record.progress = some 100 ∧
      respProgress (compositeGetStep g envC).resp = some 100) ∧
    (js.status = "failed" →
      (compositeGetStep g envC).record.status = "failed" ∧
      (compositeGetStep g envC).record.progress = some (progressOrZero g.progress) ∧
      respProgress (compositeGetStep g envC).resp = some (progressOrZero g.progress)) ∧
    (∀ g' : Generation, tryOnIsTerminal g'.status = true →
      respProgress (tryOnGetStep g' envT).resp = some 100) ∧
    (∀ g' : Generation, compositeIsTerminal g'.status = true →
      respProgress (compositeGetStep g' envC).resp = some 100) := by
  have ht : tryOnIsTerminal g.status = false := by rw [hg]; rfl
  have hc : compositeIsTerminal g.status = false := by rw [hg]; rfl
  rw [tryOnGetStep_pollOk g envT ps ht hpT, compositeGetStep_pollOk g envC js hc hpC]
  refine ⟨?_, ?_, ?_, ?_, ?_, ?_, ?_, ?_⟩
  · intro h1 h2
    have hb1 : (ps.status == "succeeded") = false := by
      simp [h1]
    have hb2 : (ps.status == "failed") = false := by
      simp [h2]
    constructor <;>
      simp [tryOnProcessPoll_record, tryOnProcessPoll_respProgress,
        tryOnApplyPoll, hb1, hb2]
  · intro hs
    have h100 := tryOnApplyPoll_succeeded_progress g envT ps hs
    exact ⟨by simp [tryOnProcessPoll_record, h100],
           by simp [tryOnProcessPoll_respProgress, h100]⟩
  · intro hs
    have hb1 : (ps.status == "succeeded") = false := by rw [hs]; rfl
    have hb2 : (ps.status == "failed") = true := by rw [hs]; rfl
    refine ⟨?_, ?_, ?_⟩ <;>
      simp [tryOnProcessPoll_record, tryOnProcessPoll_respProgress,
        tryOnProcessPoll_respStatus, tryOnApplyPoll, hb1, hb2]
  · intro h1 h2 h3
    have hb1 : (js.status == "completed" || js.status == "succeeded") = false := by
      simp [h1, h2]
    have hb2 : (js.status == "failed") = false := by
      simp [h3]
    constructor <;>
      simp [compositeProcessPoll_record, compositeProcessPoll_respProgress,
        compositeApplyPoll, hb1, hb2]
  · intro hs
    have h100 := compositeApplyPoll_succeeded_progress g envC js hs
    exact ⟨by simp [compositeProcessPoll_record, h100],
           by simp [compositeProcessPoll_respProgress, h100]⟩
  · intro hs
    have hb1 : (js.status == "completed" || js.status == "succeeded") = false := by
      rw [hs]; rfl
    have hb2 : (js.status == "failed") = true := by rw [hs]; rfl
    refine ⟨?_, ?_, ?_⟩ <;>
      simp [compositeProcessPoll_record, compositeProcessPoll_respProgress,
        compositeProcessPoll_respStatus, compositeApplyPoll, hb1, hb2]
  · intro g' hterm
    rw [tryOnGetStep_terminal g' envT hterm]
    simp [tryOnTerminalRead, respProgress]
  · intro g' hterm
    rw [compositeGetStep_terminal g' envC hterm]
    simp [compositeTerminalRead, respProgress]

theorem c3_amended_progress_policy_witness :
    (("starting" : String) ≠ "succeeded" → ("starting" : String) ≠ "failed" →
      (tryOnGetStep gProcessing (mkTryOnPollEnv "starting" none)).record.progress =
        some (if ("starting" : String) == "processing" then 50 else 25) ∧
      respProgress (tryOnGetStep gProcessing (mkTryOnPollEnv "starting" none)).resp =
        some (if ("starting" : String) == "processing" then 50 else 25)) ∧
    (("starting" : String) = "succeeded" →
      (tryOnGetStep gProcessing (mkTryOnPollEnv "starting" none)).record.progress =
        some 100 ∧
      respProgress (tryOnGetStep gProcessing (mkTryOnPollEnv "starting" none)).resp =
        some 100) ∧
    (("starting" : String) = "failed" →
      (tryOnGetStep gProcessing (mkTryOnPollEnv "starting" none)).record.status =
        "failed" ∧
      (tryOnGetStep gProcessing (mkTryOnPollEnv "starting" none)).record.progress =
        some (progressOrZero gProcessing.progress) ∧
      respProgress (tryOnGetStep gProcessing (mkTryOnPollEnv "starting" none)).resp =
        some (progressOrZero gProcessing.progress)) ∧
    (("starting" : String) ≠ "completed" → ("starting" : String) ≠ "succeeded" →
      ("starting" : String) ≠ "failed" →
      (compositeGetStep gProcessing (mkCompositePollEnv "starting" none)).record.progress =
        some (if ("starting" : String) == "processing" then 50 else 25) ∧
      respProgress
        (compositeGetStep gProcessing (mkCompositePollEnv "starting" none)).resp =
        some (if ("starting" : String) == "processing" then 50 else 25)) ∧
    (("starting" : String) = "completed" ∨ ("starting" : String) = "succeeded" →
      (compositeGetStep gProcessing (mkCompositePollEnv "starting" none)).record.progress =
        some 100 ∧
      respProgress
        (compositeGetStep gProcessing (mkCompositePollEnv "starting" none)).resp =
        some 100) ∧
    (("starting" : String) = "failed" →
      (compositeGetStep gProcessing (mkCompositePollEnv "starting" none)).record.status =
        "failed" ∧
      (compositeGetStep gProcessing (mkCompositePollEnv "starting" none)).record.progress =
        some (progressOrZero gProcessing.progress) ∧
      respProgress
        (compositeGetStep gProcessing (mkCompositePollEnv "starting" none)).resp =
        some (progressOrZero gProcessing.progress)) ∧
    (∀ g' : Generation, tryOnIsTerminal g'.status = true →
      respProgress (tryOnGetStep g' (mkTryOnPollEnv "starting" none)).resp = some 100) ∧
    (∀ g' : Generation, compositeIsTerminal g'.status = true →
      respProgress (compositeGetStep g' (mkCompositePollEnv "starting" none)).resp =
        some 100) :=
  c3_amended_progress_policy gProcessing (mkTryOnPollEnv "starting" none)
    (mkCompositePollEnv "starting" none)
    { status := "starting", output := none, error := none }
    { status := "starting", imageUrl := none, error := none }
    rfl rfl rfl

theorem probeLoop_eq_findSome (ks : List String) (fields : List (String × JsonVal)) :
    probeLoop ks fields = ks.findSome? (probeHit fields) := by
  induction ks with
  | nil => rfl
  | cons p rest ih =>
    unfold probeLoop
    rw [List.findSome?_cons]
    cases probeHit fields p <;> simp [ih]

theorem handleResolvedOutput_fx_download (g : Generation) (bucket : String) (f : Bool)
    (u : Option String) (fn : String) :
    Effect.storageDownload ∈ (handleResolvedOutput g bucket f u fn).fx := by
  cases f <;> cases u <;> simp [handleResolvedOutput] <;> split <;> simp

theorem tryOnProcessPoll_mem_fx (g : Generation) (env : TryOnGetEnv)
    (ps : PredictionStatus) (e : Effect) (he : e ∈ (tryOnApplyPoll g env ps).fx) :
    e ∈ (tryOnProcessPoll g env ps).effects := by
  simp [tryOnProcessPoll, List.mem_append, he]

theorem compositeProcessPoll_mem_fx (g : Generation) (env : CompositeGetEnv)
    (js : JobStatus) (e : Effect) (he : e ∈ (compositeApplyPoll g env js).fx) :
    e ∈ (compositeProcessPoll g env js).effects := by
  simp [compositeProcessPoll, List.mem_append, he]

/-- C1 counterexample: on the composite route a succeeded poll whose
output is an object with none of the five candidate keys does NOT fail
with a "no output image" error — the object is truthy, so it is treated
as the image reference and passed to the download step, whose fetch of
the non-URL value throws; the generation fails with the generic
download-failure message instead of the claimed "no output image" one. -/
theorem c1_counterexample_keyless_object_gets_download_error :
    (compositeGetStep gProcessingComposite envCompositeFooObj).record.status =
      "failed" ∧
    (compositeGetStep gProcessingComposite envCompositeFooObj).record.error =
      some "Failed to download or process the generated image" ∧
    (compositeGetStep gProcessingComposite envCompositeFooObj).record.error ≠
      some "No output image received from the API" ∧
    respErrorField (compositeGetStep gProcessingComposite envCompositeFooObj).resp =
      some (some "Failed to download or process the generated image") := by
  decide

/-- C1 amended: the try-on route resolves a succeeded poll's output per
the full rule — a non-empty string is taken whole, a non-empty array's
first element is authoritative, an object is probed over the five
candidate keys in their fixed order (first hit wins), and an empty array
or an object with none of the five keys resolves nothing, failing the
generation with the "No output image received" error naming the output's
typeof. The composite route does not probe: its adapter passes the raw
output through and the route tests only JavaScript truthiness, so any
truthy output (a keyless object or an empty array included) is sent to
the download step, and only a falsy or absent output produces the bare
"No output image received from the API" failure. -/
theorem c1_amended_output_resolution :
    (∀ s : String, s ≠ "" →
      extractTryOnImageUrl (some (.str s)) = some (.str s)) ∧
    (∀ (v : JsonVal) (vs : List JsonVal),
      extractTryOnImageUrl (some (.arr (v :: vs))) = some v) ∧
    (∀ fields : List (String × JsonVal),
      extractTryOnImageUrl (some (.obj fields)) =
        possibleProps.findSome? (probeHit fields)) ∧
    (extractTryOnImageUrl (some (.arr [])) = none) ∧
    (∀ fields : List (String × JsonVal),
      (∀ k ∈ possibleProps, objGet fields k = none) →
      extractTryOnImageUrl (some (.obj fields)) = none) ∧
    (∀ (g : Generation) (envT : TryOnGetEnv) (ps : PredictionStatus),
      g.status = "processing" → envT.poll = .ok ps → ps.status = "succeeded" →
      jsTruthyOpt (extractTryOnImageUrl ps.output) = false →
      (tryOnGetStep g envT).record.status = "failed" ∧
      (tryOnGetStep g envT).record.error =
        some ("No output image received from the API. Output format: " ++
          jsTypeofOpt ps.output)) ∧
    (∀ (g : Generation) (envT : TryOnGetEnv) (ps : PredictionStatus),
      g.status = "processing" → envT.poll = .ok ps → ps.status = "succeeded" →
      jsTruthyOpt (extractTryOnImageUrl ps.output) = true →
      Effect.storageDownload ∈ (tryOnGetStep g envT).effects) ∧
    (∀ (g : Generation) (envC : CompositeGetEnv) (js : JobStatus),
      g.status = "processing" → envC.poll = .ok js →
      js.status = "completed" ∨ js.status = "succeeded" →
      jsTruthyOpt js.imageUrl = true →
      Effect.storageDownload ∈ (compositeGetStep g envC).effects) ∧
    (∀ (g : Generation) (envC : CompositeGetEnv) (js : JobStatus),
      g.status = "processing" → envC.poll = .ok js →
      js.status = "completed" ∨ js.status = "succeeded" →
      jsTruthyOpt js.imageUrl = false →
      (compositeGetStep g envC).record.status = "failed" ∧
      (compositeGetStep g envC).record.error =
        some "No output image received from the API") := by
  refine ⟨?_, ?_, ?_, ?_, ?_, ?_, ?_, ?_, ?_⟩
  · intro s hs
    simp [extractTryOnImageUrl, jsTruthy, hs]
  · intro v vs
    rfl
  · intro fields
    simp [extractTryOnImageUrl, jsTruthy, probeLoop_eq_findSome]
  · rfl
  · intro fields h
    have h1 : objGet fields "image" = none := h "image" (by simp [possibleProps])
    have h2 : objGet fields "url" = none := h "url" (by simp [possibleProps])
    have h3 : objGet fields "output" = none := h "output" (by simp [possibleProps])
    have h4 : objGet fields "result" = none := h "result" (by simp [possibleProps])
    have h5 : objGet fields "generated_image" = none :=
      h "generated_image" (by simp [possibleProps])
    simp [extractTryOnImageUrl, jsTruthy, possibleProps, probeLoop, probeHit,
      h1, h2, h3, h4, h5]
  · intro g envT ps hg hp hs hx
    have ht : tryOnIsTerminal g.status = false := by rw [hg]; rfl
    have hb : (ps.status == "succeeded") = true := by rw [hs]; rfl
    rw [tryOnGetStep_pollOk g envT ps ht hp]
    constructor <;>
      simp [tryOnProcessPoll_record, tryOnApplyPoll, hb, hx]
  · intro g envT ps hg hp hs hx
    have ht : tryOnIsTerminal g.status = false := by rw [hg]; rfl
    rw [tryOnGetStep_pollOk g envT ps ht hp]
    have hu := tryOnApplyPoll_succeeded_resolved g envT ps hs hx
    refine tryOnProcessPoll_mem_fx g envT ps _ ?_
    rw [hu]
    exact handleResolvedOutput_fx_download g tryOnBucket envT.fetchOk
      envT.uploadError envT.filename
  · intro g envC js hg hp hs hx
    have hc : compositeIsTerminal g.status = false := by rw [hg]; rfl
    rw [compositeGetStep_pollOk g envC js hc hp]
    have hu := compositeApplyPoll_succeeded_resolved g envC js hs hx
    refine compositeProcessPoll_mem_fx g envC js _ ?_
    rw [hu]
    exact handleResolvedOutput_fx_download g compositeBucket envC.fetchOk
      envC.uploadError envC.filename
  · intro g envC js hg hp hs hx
    have hc : compositeIsTerminal g.status = false := by rw [hg]; rfl
    have hb : (js.status == "completed" || js.status == "succeeded") = true := by
      rcases hs with h | h <;> rw [h] <;> rfl
    rw [compositeGetStep_pollOk g envC js hc hp]
    constructor <;>
      simp [compositeProcessPoll_record, compositeApplyPoll, hb, hx]

theorem c1_amended_output_resolution_witness :
    extractTryOnImageUrl (some (.str "https://cdn/x.png")) =
      some (.str "https://cdn/x.png") ∧
    ((tryOnGetStep gProcessing envTryOnFooObj).record.status = "failed" ∧
     (tryOnGetStep gProcessing envTryOnFooObj).record.error =
       some ("No output image received from the API. Output format: " ++
         jsTypeofOpt (some (.obj [("foo", .str "bar")])))) ∧
    ((compositeGetStep gProcessingComposite envCompositeNoOutput).record.status =
       "failed" ∧
     (compositeGetStep gProcessingComposite envCompositeNoOutput).record.error =
       some "No output image received from the API") :=
  ⟨c1_amended_output_resolution.1 "https://cdn/x.png" (by decide),
   c1_amended_output_resolution.2.2.2.2.2.1 gProcessing envTryOnFooObj
     { status := "succeeded", output := some (.obj [("foo", .str "bar")]), error := none }
     rfl rfl rfl (by decide),
   c1_amended_output_resolution.2.2.2.2.2.2.2.2 gProcessingComposite envCompositeNoOutput
     { status := "succeeded", imageUrl := none, error := none }
     rfl rfl (Or.inr rfl) (by decide)⟩
